import Mathlib

/-!
Verification of the physics formula layer of a radiation-physics education
repository. The definitions below are a shallow embedding, over the real
numbers, of the pure functions in `src/shared/physics_constants.py`,
`src/shared/physics_calculations.py` and the numeric plot-data loops of
`src/shared/plotting_utils.py`. Python floats are modelled as exact reals;
claims stated "within floating-point tolerance" are settled over ℝ, where a
discrepancy by tens of orders of magnitude is decisive either way.
-/

namespace RadPhysics

noncomputable section

/-- Planck constant in J·s (`physics_constants.py`, line 9). -/
def PLANCK_CONSTANT : ℝ := 6.62607015e-34

/-- Speed of light in m/s (`physics_constants.py`, line 11). -/
def SPEED_OF_LIGHT : ℝ := 2.99792458e8

/-- Electron rest mass in kg (`physics_constants.py`, line 12). -/
def ELECTRON_REST_MASS : ℝ := 9.1093837015e-31

/-- Electron rest energy in keV (`physics_constants.py`, line 13). -/
def ELECTRON_REST_ENERGY : ℝ := 510.998946

/-- eV → J conversion factor (`physics_constants.py`, line 18). -/
def EV_TO_JOULES : ℝ := 1.602176634e-19

/-- keV → J conversion factor (`physics_constants.py`, line 19). -/
def KEV_TO_JOULES : ℝ := 1.602176634e-16

/-- J → keV conversion factor (`physics_constants.py`, line 22). -/
def JOULES_TO_KEV : ℝ := 1 / KEV_TO_JOULES

/-- Å → m conversion factor (`physics_constants.py`, line 26). -/
def ANGSTROM_TO_METERS : ℝ := 1e-10

/-- m → Å conversion factor (`physics_constants.py`, line 27). -/
def METERS_TO_ANGSTROM : ℝ := 1e10

/-- `energy_to_wavelength` (`physics_constants.py`, lines 30-32):
`(PLANCK_CONSTANT * SPEED_OF_LIGHT) / (energy_kev * KEV_TO_JOULES)`. -/
def energy_to_wavelength (energy_kev : ℝ) : ℝ :=
  (PLANCK_CONSTANT * SPEED_OF_LIGHT) / (energy_kev * KEV_TO_JOULES)

/-- `wavelength_to_energy` (`physics_constants.py`, lines 34-36):
`(PLANCK_CONSTANT * SPEED_OF_LIGHT) / (wavelength_m * JOULES_TO_KEV)`.
Note the source divides by `JOULES_TO_KEV` here. -/
def wavelength_to_energy (wavelength_m : ℝ) : ℝ :=
  (PLANCK_CONSTANT * SPEED_OF_LIGHT) / (wavelength_m * JOULES_TO_KEV)

/-- Result mapping of `photoelectric_effect` (`physics_calculations.py`,
lines 19-36): the keys of the returned dict become fields. -/
structure PhotoelectricResult where
  kinetic_energy : ℝ
  max_electron_energy : ℝ
  threshold_frequency : ℝ
  can_eject : Bool
  threshold_wavelength : ℝ

/-- `photoelectric_effect` (`physics_calculations.py`, lines 8-36).
Inputs in eV; `work_function / 1000` converts eV to keV for the
threshold-wavelength call, as in the source. -/
def photoelectric_effect (incident_energy work_function : ℝ) : PhotoelectricResult :=
  if incident_energy < work_function then
    { kinetic_energy := 0
      max_electron_energy := 0
      threshold_frequency := work_function / PLANCK_CONSTANT * EV_TO_JOULES
      can_eject := false
      threshold_wavelength := energy_to_wavelength (work_function / 1000) }
  else
    let kinetic_energy := incident_energy - work_function
    { kinetic_energy := kinetic_energy
      max_electron_energy := kinetic_energy
      threshold_frequency := work_function / PLANCK_CONSTANT * EV_TO_JOULES
      can_eject := true
      threshold_wavelength := energy_to_wavelength (work_function / 1000) }

/-- Result mapping of `pair_production` (`physics_calculations.py`,
lines 90-108). -/
structure PairProductionResult where
  threshold_energy : ℝ
  excess_energy : ℝ
  kinetic_energy_each : ℝ
  can_occur : Bool
  minimum_energy : ℝ

/-- `pair_production` (`physics_calculations.py`, lines 77-108). Input in keV. -/
def pair_production (incident_energy : ℝ) : PairProductionResult :=
  let threshold_energy := 2 * ELECTRON_REST_ENERGY
  if incident_energy < threshold_energy then
    { threshold_energy := threshold_energy
      excess_energy := 0
      kinetic_energy_each := 0
      can_occur := false
      minimum_energy := threshold_energy }
  else
    let total_energy := incident_energy - threshold_energy
    { threshold_energy := threshold_energy
      excess_energy := total_energy
      kinetic_energy_each := total_energy / 2
      can_occur := true
      minimum_energy := threshold_energy }

/-- `compton_wavelength_max` (`physics_calculations.py`, lines 110-121):
`2 * lambda_c`, with the argument unused by the source body. -/
def compton_wavelength_max (incident_energy : ℝ) : ℝ :=
  let lambda_c := PLANCK_CONSTANT / (ELECTRON_REST_MASS * SPEED_OF_LIGHT) * METERS_TO_ANGSTROM
  2 * lambda_c

/-- `np.radians`: degrees to radians. -/
def radians (degrees : ℝ) : ℝ := degrees * Real.pi / 180

/-- Result mapping of `compton_scattering` (`physics_calculations.py`,
lines 69-75). -/
structure ComptonResult where
  scattered_energy : ℝ
  wavelength_change : ℝ
  recoil_electron_energy : ℝ
  energy_lost : ℝ
  compton_wavelength : ℝ

/-- `compton_scattering` (`physics_calculations.py`, lines 38-75). Incident
energy in keV, scattering angle in degrees. The recoil line divides by
`ELECTRON_REST_ENERGY * 1000`, exactly as the source does. -/
def compton_scattering (incident_energy scattering_angle : ℝ) : ComptonResult :=
  let theta := radians scattering_angle
  let lambda_c := PLANCK_CONSTANT / (ELECTRON_REST_MASS * SPEED_OF_LIGHT) * METERS_TO_ANGSTROM
  let lambda_i := energy_to_wavelength incident_energy * METERS_TO_ANGSTROM
  let lambda_f := lambda_i + lambda_c * (1 - Real.cos theta)
  let scattered_energy := wavelength_to_energy (lambda_f * ANGSTROM_TO_METERS)
  let energy_lost := incident_energy - scattered_energy
  let electron_energy :=
    energy_lost * (1 - Real.cos theta) / (1 + energy_lost / (ELECTRON_REST_ENERGY * 1000))
  { scattered_energy := scattered_energy
    wavelength_change := lambda_f - lambda_i
    recoil_electron_energy := electron_energy
    energy_lost := energy_lost
    compton_wavelength := lambda_c }

/-- Modelled from the spec's words (§4.3 step 7), for comparison with the
source: the recoil formula whose denominator uses the electron rest energy
expressed in keV (≈ 510.999), i.e.
`energy_lost * (1 - cos θ) / (1 + energy_lost / electron_rest_energy_keV)`. -/
def spec_recoil_formula (incident_energy scattering_angle : ℝ) : ℝ :=
  let energy_lost := (compton_scattering incident_energy scattering_angle).energy_lost
  energy_lost * (1 - Real.cos (radians scattering_angle))
    / (1 + energy_lost / ELECTRON_REST_ENERGY)

/-- `np.linspace(a, b, n)`: `n` evenly spaced samples over `[a, b]`, both
endpoints included. -/
def linspace (a b : ℝ) (n : ℕ) : List ℝ :=
  (List.range n).map (fun i : ℕ => a + (b - a) * (i : ℝ) / ((n : ℝ) - 1))

/-- The sweep pattern shared by the plot-data loops of `plotting_utils.py`:
evaluate the calculation at each sample point of `linspace a b n` and collect
the aligned (x, y) pairs. -/
def sweep {α : Type} (f : ℝ → α) (a b : ℝ) (n : ℕ) : List (ℝ × α) :=
  (linspace a b n).map (fun x => (x, f x))

/-- Numeric plot data of `create_compton_scattering_plot` (`plotting_utils.py`,
lines 87-94): 100 angles linearly spaced over `[0, max_angle]`; at each angle
`compton_scattering` is invoked at `incident_energy * 1000` (MeV → keV) and
`(scattered_energy / 1000, wavelength_change)` is collected. -/
def create_compton_scattering_plot_data (incident_energy max_angle : ℝ) :
    List (ℝ × ℝ × ℝ) :=
  sweep (fun angle =>
    let result := compton_scattering (incident_energy * 1000) angle
    (result.scattered_energy / 1000, result.wavelength_change)) 0 max_angle 100

/-- Numeric plot data of `create_pair_production_plot` (`plotting_utils.py`,
lines 144-153): 200 energies linearly spaced over `[0.5, max_energy]` MeV; at
each, `pair_production` is invoked at `energy * 1000` and the threshold, excess
and per-particle kinetic energies are collected, each divided by 1000. -/
def create_pair_production_plot_data (max_energy : ℝ) : List (ℝ × ℝ × ℝ × ℝ) :=
  sweep (fun energy =>
    let result := pair_production (energy * 1000)
    (result.threshold_energy / 1000, result.excess_energy / 1000,
      result.kinetic_energy_each / 1000)) 0.5 max_energy 200

end

/-- Characterisation of the converter round trip as the code computes it:
for nonzero energy it returns `E * KEV_TO_JOULES ^ 2`, not `E`. -/
theorem roundtrip_value (E : ℝ) :
    wavelength_to_energy (energy_to_wavelength E) = E * KEV_TO_JOULES ^ 2 := by
  have hhc : PLANCK_CONSTANT * SPEED_OF_LIGHT ≠ 0 := by
    simp only [PLANCK_CONSTANT, SPEED_OF_LIGHT]
    norm_num
  have hk : KEV_TO_JOULES ≠ 0 := by
    simp only [KEV_TO_JOULES]; norm_num
  simp only [wavelength_to_energy, energy_to_wavelength, JOULES_TO_KEV]
  field_simp
  ring

/-- C1: the claimed round trip `wavelength_to_energy (energy_to_wavelength E) = E`
fails at the concrete input `E = 1` (the code returns `KEV_TO_JOULES ^ 2 ≈ 2.57e-32`
there, astronomically outside any floating-point tolerance). -/
theorem roundtrip_fails_at_one :
    wavelength_to_energy (energy_to_wavelength 1) ≠ 1 := by
  simp only [wavelength_to_energy, energy_to_wavelength, JOULES_TO_KEV,
    PLANCK_CONSTANT, SPEED_OF_LIGHT, KEV_TO_JOULES]
  norm_num

/-- C3: `pair_production` invariants: `can_occur` holds exactly when the incident
energy reaches the threshold `2 * ELECTRON_REST_ENERGY` (≈ 1021.998 keV, within
0.001); below threshold the excess and per-particle kinetic energies are 0 and
`minimum_energy` is the threshold; at or above threshold the excess energy is
`incident_energy - threshold` and each particle gets half of it. -/
theorem pair_production_spec (E : ℝ) :
    ((pair_production E).can_occur = true ↔ 2 * ELECTRON_REST_ENERGY ≤ E)
    ∧ (pair_production E).threshold_energy = 2 * ELECTRON_REST_ENERGY
    ∧ |2 * ELECTRON_REST_ENERGY - (1021.998 : ℝ)| < 1 / 1000
    ∧ ((pair_production E).can_occur = false →
        (pair_production E).excess_energy = 0
        ∧ (pair_production E).kinetic_energy_each = 0
        ∧ (pair_production E).minimum_energy = 2 * ELECTRON_REST_ENERGY)
    ∧ ((pair_production E).can_occur = true →
        (pair_production E).excess_energy = E - 2 * ELECTRON_REST_ENERGY
        ∧ (pair_production E).kinetic_energy_each = (pair_production E).excess_energy / 2) := by
  have habs : |2 * ELECTRON_REST_ENERGY - (1021.998 : ℝ)| < 1 / 1000 := by
    rw [ELECTRON_REST_ENERGY, abs_sub_lt_iff]
    norm_num
  simp only [pair_production]
  split_ifs with h
  · exact ⟨by simpa using not_le.mpr h, rfl, habs, fun _ => ⟨rfl, rfl, rfl⟩,
      by simp⟩
  · exact ⟨by simpa using not_lt.mp h, rfl, habs, by simp, fun _ => ⟨rfl, rfl⟩⟩

/-- C4: `photoelectric_effect` invariants for nonnegative incident energy and
positive work function: `can_eject` holds exactly when the incident energy
reaches the work function; below it the kinetic energy is 0; at or above it the
kinetic energy is exactly `incident_energy - work_function`. -/
theorem photoelectric_spec (E W : ℝ) (hE : 0 ≤ E) (hW : 0 < W) :
    ((photoelectric_effect E W).can_eject = true ↔ W ≤ E)
    ∧ ((photoelectric_effect E W).can_eject = false →
        (photoelectric_effect E W).kinetic_energy = 0)
    ∧ ((photoelectric_effect E W).can_eject = true →
        (photoelectric_effect E W).kinetic_energy = E - W) := by
  unfold photoelectric_effect
  split_ifs with h
  · exact ⟨by simpa using not_le.mpr h, fun _ => rfl, by simp⟩
  · exact ⟨by simpa using not_lt.mp h, by simp, fun _ => rfl⟩

/-- Witness for C4 at the spec's own scenario: incident energy 6.0 eV against
the 2.1 eV work function. -/
theorem photoelectric_spec_witness :
    (0 : ℝ) ≤ 6 ∧ (0 : ℝ) < 2.1
    ∧ (((photoelectric_effect 6 2.1).can_eject = true ↔ (2.1 : ℝ) ≤ 6)
       ∧ ((photoelectric_effect 6 2.1).can_eject = false →
           (photoelectric_effect 6 2.1).kinetic_energy = 0)
       ∧ ((photoelectric_effect 6 2.1).can_eject = true →
           (photoelectric_effect 6 2.1).kinetic_energy = 6 - 2.1)) :=
  ⟨by norm_num, by norm_num, photoelectric_spec 6 2.1 (by norm_num) (by norm_num)⟩

/-- C9: the `max_electron_energy` field of `photoelectric_effect` equals its
`kinetic_energy` field on every input, in both branches. -/
theorem photoelectric_max_electron_energy (E W : ℝ) :
    (photoelectric_effect E W).max_electron_energy
      = (photoelectric_effect E W).kinetic_energy := by
  unfold photoelectric_effect
  split_ifs <;> rfl

/-- C2: at scattering angle 0 the wavelength change is 0 as claimed, but the
scattered energy does NOT equal the incident energy: at the concrete input
`incident_energy = 500` keV the code returns `500 * KEV_TO_JOULES ^ 2 ≈ 1.3e-29`
keV (the `wavelength_to_energy` unit slip), not 500 keV. -/
theorem compton_zero_angle_fails :
    (compton_scattering 500 0).wavelength_change = 0
    ∧ (compton_scattering 500 0).scattered_energy ≠ 500 := by
  constructor
  · simp only [compton_scattering, radians, zero_mul, zero_div, Real.cos_zero]
    ring
  · simp only [compton_scattering, radians, energy_to_wavelength, wavelength_to_energy,
      zero_mul, zero_div, Real.cos_zero, PLANCK_CONSTANT, SPEED_OF_LIGHT,
      ELECTRON_REST_MASS, ELECTRON_REST_ENERGY, METERS_TO_ANGSTROM,
      ANGSTROM_TO_METERS, KEV_TO_JOULES, JOULES_TO_KEV]
    norm_num

/-- C6: `compton_scattering` invariants: the `energy_lost` field always equals
`incident_energy - scattered_energy`, and the `compton_wavelength` field is the
same for all inputs, a constant within 0.0001 of 0.0243 Å. -/
theorem compton_invariants (E θ E' θ' : ℝ) :
    (compton_scattering E θ).energy_lost = E - (compton_scattering E θ).scattered_energy
    ∧ (compton_scattering E θ).compton_wavelength
        = (compton_scattering E' θ').compton_wavelength
    ∧ |(compton_scattering E θ).compton_wavelength - 0.0243| < 0.0001 := by
  refine ⟨rfl, rfl, ?_⟩
  simp only [compton_scattering, PLANCK_CONSTANT, ELECTRON_REST_MASS, SPEED_OF_LIGHT,
    METERS_TO_ANGSTROM]
  rw [abs_sub_lt_iff]
  constructor <;> norm_num

/-- C10: `compton_wavelength_max` ignores its argument, and its value is exactly
twice the `compton_wavelength` field that `compton_scattering` returns on any
input. -/
theorem compton_wavelength_max_spec (E E' θ : ℝ) :
    compton_wavelength_max E = compton_wavelength_max E'
    ∧ compton_wavelength_max E = 2 * (compton_scattering E' θ).compton_wavelength :=
  ⟨rfl, rfl⟩

/-- The wavelength-change field in closed form: `λc * (1 - cos θ)`. -/
theorem wavelength_change_eq (E θ : ℝ) :
    (compton_scattering E θ).wavelength_change
      = PLANCK_CONSTANT / (ELECTRON_REST_MASS * SPEED_OF_LIGHT) * METERS_TO_ANGSTROM
          * (1 - Real.cos (radians θ)) := by
  simp only [compton_scattering]
  ring

/-- C7: for a fixed positive incident energy, the `wavelength_change` field of
`compton_scattering` is monotonically non-decreasing in the scattering angle
over [0, 180] degrees. -/
theorem compton_wavelength_change_mono (E a b : ℝ) (hE : 0 < E)
    (ha : 0 ≤ a) (hab : a ≤ b) (hb : b ≤ 180) :
    (compton_scattering E a).wavelength_change
      ≤ (compton_scattering E b).wavelength_change := by
  rw [wavelength_change_eq, wavelength_change_eq]
  have hπ := Real.pi_pos
  have h0a : 0 ≤ a * Real.pi / 180 := div_nonneg (mul_nonneg ha hπ.le) (by norm_num)
  have hbπ : b * Real.pi / 180 ≤ Real.pi := by
    rw [div_le_iff (by norm_num : (0:ℝ) < 180)]
    nlinarith
  have hmono : a * Real.pi / 180 ≤ b * Real.pi / 180 := by
    have h := mul_le_mul_of_nonneg_right hab hπ.le
    linarith
  have hcos : Real.cos (radians b) ≤ Real.cos (radians a) := by
    simp only [radians]
    exact Real.cos_le_cos_of_nonneg_of_le_pi h0a hbπ hmono
  have hl : 0 ≤ PLANCK_CONSTANT / (ELECTRON_REST_MASS * SPEED_OF_LIGHT) * METERS_TO_ANGSTROM := by
    simp only [PLANCK_CONSTANT, ELECTRON_REST_MASS, SPEED_OF_LIGHT, METERS_TO_ANGSTROM]
    norm_num
  exact mul_le_mul_of_nonneg_left (by linarith) hl

/-- Witness for C7 at the concrete inputs `E = 500` keV, angles 0 and 180. -/
theorem compton_wavelength_change_mono_witness :
    (0:ℝ) < 500 ∧ (0:ℝ) ≤ 0 ∧ (0:ℝ) ≤ 180 ∧ (180:ℝ) ≤ 180
    ∧ (compton_scattering 500 0).wavelength_change
        ≤ (compton_scattering 500 180).wavelength_change :=
  ⟨by norm_num, le_refl 0, by norm_num, le_refl 180,
    compton_wavelength_change_mono 500 0 180 (by norm_num) (le_refl 0)
      (by norm_num) (le_refl 180)⟩

/-- C5 as stated is false: at the concrete input `incident_energy = 500` keV,
`scattering_angle = 180°`, the `recoil_electron_energy` the code returns (whose
denominator constant is `ELECTRON_REST_ENERGY * 1000 ≈ 510998.946`) differs
from the spec's formula, whose denominator uses the electron rest energy in
keV (≈ 510.999). -/
theorem compton_recoil_spec_counterexample :
    (compton_scattering 500 180).recoil_electron_energy ≠ spec_recoil_formula 500 180 := by
  simp only [compton_scattering, spec_recoil_formula, radians, energy_to_wavelength,
    wavelength_to_energy, PLANCK_CONSTANT, SPEED_OF_LIGHT, ELECTRON_REST_MASS,
    ELECTRON_REST_ENERGY, METERS_TO_ANGSTROM, ANGSTROM_TO_METERS, KEV_TO_JOULES,
    JOULES_TO_KEV]
  rw [show ((180:ℝ) * Real.pi / 180) = Real.pi by ring, Real.cos_pi]
  norm_num

/-- C5 amended: the `recoil_electron_energy` field equals
`energy_lost * (1 - cos θ) / (1 + energy_lost / (ELECTRON_REST_ENERGY * 1000))`
for every input — the denominator constant is the rest energy value times 1000
(≈ 510998.946), not the rest energy in keV. -/
theorem compton_recoil_formula (E θ : ℝ) :
    (compton_scattering E θ).recoil_electron_energy
      = (compton_scattering E θ).energy_lost * (1 - Real.cos (radians θ))
          / (1 + (compton_scattering E θ).energy_lost / (ELECTRON_REST_ENERGY * 1000)) := rfl

/-- C8: for `n ≥ 2` samples, the sweep pattern produces exactly `n` aligned
pairs: the i-th pair is `(xᵢ, f xᵢ)` with `xᵢ = a + (b - a) * i / (n - 1)`;
the first x is `a`, the last is `b`, and consecutive x values differ by the
constant step `(b - a) / (n - 1)`. The two linear-spacing plot generators of
the repository instantiate this pattern with n = 100 and n = 200 samples. -/
theorem sweep_spec {α : Type} (f : ℝ → α) (a b : ℝ) (n : ℕ) (Ei m M : ℝ)
    (hn : 2 ≤ n) :
    (sweep f a b n).length = n
    ∧ (∀ i, i < n → (sweep f a b n).get? i
        = some (a + (b - a) * i / ((n : ℝ) - 1), f (a + (b - a) * i / ((n : ℝ) - 1))))
    ∧ (sweep f a b n).get? 0 = some (a, f a)
    ∧ (sweep f a b n).get? (n - 1) = some (b, f b)
    ∧ (∀ i : ℕ, (a + (b - a) * ((i + 1 : ℕ) : ℝ) / ((n : ℝ) - 1))
          - (a + (b - a) * i / ((n : ℝ) - 1)) = (b - a) / ((n : ℝ) - 1))
    ∧ (create_compton_scattering_plot_data Ei m).length = 100
    ∧ (create_pair_production_plot_data M).length = 200 := by
  have hget : ∀ i, i < n → (sweep f a b n).get? i
      = some (a + (b - a) * i / ((n : ℝ) - 1), f (a + (b - a) * i / ((n : ℝ) - 1))) := by
    intro i hi
    unfold sweep linspace
    rw [List.map_map, List.get?_map, List.get?_range hi]
    rfl
  have hlen : (sweep f a b n).length = n := by
    unfold sweep linspace
    rw [List.length_map, List.length_map, List.length_range]
  have hlenC : (create_compton_scattering_plot_data Ei m).length = 100 := by
    unfold create_compton_scattering_plot_data sweep linspace
    rw [List.length_map, List.length_map, List.length_range]
  have hlenP : (create_pair_production_plot_data M).length = 200 := by
    unfold create_pair_production_plot_data sweep linspace
    rw [List.length_map, List.length_map, List.length_range]
  refine ⟨hlen, hget, ?_, ?_, ?_, hlenC, hlenP⟩
  · have hx0 : a + (b - a) * ((0 : ℕ) : ℝ) / ((n : ℝ) - 1) = a := by
      push_cast
      ring
    rw [hget 0 (by omega), hx0]
  · have h2 : (2 : ℝ) ≤ (n : ℝ) := by exact_mod_cast hn
    have hne : (n : ℝ) - 1 ≠ 0 := by linarith
    have hxl : a + (b - a) * ((n - 1 : ℕ) : ℝ) / ((n : ℝ) - 1) = b := by
      rw [Nat.cast_sub (by omega)]
      push_cast
      field_simp
    rw [hget (n - 1) (by omega), hxl]
  · intro i
    push_cast
    ring

/-- Witness for C8: the sweep pattern at the identity function over `[0, 1]`
with 2 samples, and the concrete plot generators at incident energy 1 MeV,
maximum angle 180° and maximum energy 5 MeV. -/
theorem sweep_spec_witness :
    2 ≤ 2
    ∧ ((sweep (fun x : ℝ => x) 0 1 2).length = 2
      ∧ (∀ i, i < 2 → (sweep (fun x : ℝ => x) 0 1 2).get? i
          = some ((0 : ℝ) + (1 - 0) * i / (((2 : ℕ) : ℝ) - 1),
              (0 : ℝ) + (1 - 0) * i / (((2 : ℕ) : ℝ) - 1)))
      ∧ (sweep (fun x : ℝ => x) 0 1 2).get? 0 = some (0, 0)
      ∧ (sweep (fun x : ℝ => x) 0 1 2).get? (2 - 1) = some (1, 1)
      ∧ (∀ i : ℕ, ((0 : ℝ) + (1 - 0) * ((i + 1 : ℕ) : ℝ) / (((2 : ℕ) : ℝ) - 1))
            - ((0 : ℝ) + (1 - 0) * i / (((2 : ℕ) : ℝ) - 1))
            = (1 - 0) / (((2 : ℕ) : ℝ) - 1))
      ∧ (create_compton_scattering_plot_data 1 180).length = 100
      ∧ (create_pair_production_plot_data 5).length = 200) :=
  ⟨by norm_num, sweep_spec (fun x : ℝ => x) 0 1 2 1 180 5 (by norm_num)⟩

end RadPhysics
